import Mathlib

/-!
Shallow embedding of `src/c_wrapper/posix.c` from the async-timer
repository.

The file holds a single C function:

```
typedef void (*callback)(union sigval);

timer_t posix_timer(callback cb, void* data) {
    timer_t id;
    struct sigevent sev = {
        .sigev_notify = SIGEV_THREAD,
        .sigev_notify_function = cb,
    };

    sev.sigev_value.sival_ptr = data;

    if (timer_create(CLOCK_REALTIME, &sev, &id) == -1) {
        return 0;
    } else {
        return id;
    }
}
```

Modelling choices:
* Pointers (the function pointer `cb`, the opaque context `data`, the
  `pthread_attr_t*` attributes pointer) are addresses, embedded as `Nat`,
  with `0` the null pointer.
* `timer_t` is an opaque handle, embedded as `Nat`; `0` is the sentinel
  the wrapper returns on failure.
* The host kernel is an oracle: `timer_create` is a function from the
  clock id and the `sigevent` to `Except Int Nat` — `Except.error e`
  models a `-1` return with `errno = e`, `Except.ok id` models a `0`
  return that wrote `id` into the output handle.
* `posix_timer` returns the C return value together with the trace of
  host calls it performed, so that frame conditions (which host calls are
  made, with which arguments) are statable.
-/

/-- Notification-mode constant from `signal.h` (Linux value). -/
def SIGEV_SIGNAL : Int := 0

/-- Notification-mode constant from `signal.h` (Linux value). -/
def SIGEV_NONE : Int := 1

/-- Notification-mode constant from `signal.h` (Linux value): request that
expiration be delivered by invoking a notification function on a new,
host-managed thread. -/
def SIGEV_THREAD : Int := 2

/-- Clock identifier from `time.h` (Linux value): the realtime clock. -/
def CLOCK_REALTIME : Int := 0

/-- Clock identifier from `time.h` (Linux value): the monotonic clock. -/
def CLOCK_MONOTONIC : Int := 1

/-- The fields of `struct sigevent` used by the POSIX timer API.
`sigev_value` models the `sival_ptr` member of the `union sigval`;
`sigev_notify_function` is the notification function pointer and
`sigev_notify_attributes` the `pthread_attr_t*` pointer, both as
addresses with `0` for null. -/
structure Sigevent where
  sigev_notify : Int
  sigev_signo : Int
  sigev_value : Nat
  sigev_notify_function : Nat
  sigev_notify_attributes : Nat
deriving DecidableEq, Repr

/-- One call into the host timer facility.  `timer_create` records the
clock, the sigevent handed over, and the host's response (recorded so the
trace shows whether the kernel registration succeeded).  `timer_settime`
is the arming/configure call of the POSIX API; `posix_timer` never makes
it, and the constructor exists so that absence is statable. -/
inductive HostCall where
  | timer_create (clk : Int) (sev : Sigevent) (res : Except Int Nat)
  | timer_settime (id : Nat) (flags : Int)

/-- The host kernel's `timer_create` behavior: from the clock id and the
sigevent to either failure with an errno (`Except.error e`, modelling a
`-1` return) or success with the timer identifier written into the output
handle (`Except.ok id`). -/
def Host : Type := Int → Sigevent → Except Int Nat

/-- The `struct sigevent` value built inside `posix_timer`: the designated
initializer sets `sigev_notify` and `sigev_notify_function` and
zero-initializes every other field (so `sigev_signo = 0`,
`sigev_value = 0`, `sigev_notify_attributes = NULL`); the following
statement `sev.sigev_value.sival_ptr = data` then stores the context
pointer. -/
def posix_sigevent (cb data : Nat) : Sigevent :=
  let sev : Sigevent :=
    { sigev_notify := SIGEV_THREAD
      sigev_signo := 0
      sigev_value := 0
      sigev_notify_function := cb
      sigev_notify_attributes := 0 }
  { sev with sigev_value := data }

/-- `timer_t posix_timer(callback cb, void* data)`: builds the sigevent,
calls `timer_create(CLOCK_REALTIME, &sev, &id)` once, and returns `0` if
that call returned `-1`, else the identifier the host wrote into `id`.
The second component is the trace of host calls performed. -/
def posix_timer (host : Host) (cb data : Nat) : Nat × List HostCall :=
  match host CLOCK_REALTIME (posix_sigevent cb data) with
  | Except.error e =>
      (0, [HostCall.timer_create CLOCK_REALTIME (posix_sigevent cb data) (Except.error e)])
  | Except.ok id =>
      (id, [HostCall.timer_create CLOCK_REALTIME (posix_sigevent cb data) (Except.ok id)])

/-- C1: if the host's `timer_create` fails (returns `-1`), `posix_timer`
returns the sentinel `0`, and every failure errno yields that same single
sentinel — no error code or cause distinction is surfaced to the caller. -/
theorem posix_timer_failure_sentinel (host : Host) (cb data : Nat) (e : Int)
    (h : host CLOCK_REALTIME (posix_sigevent cb data) = Except.error e) :
    (posix_timer host cb data).fst = 0 ∧
      ∀ (host2 : Host) (e2 : Int),
        host2 CLOCK_REALTIME (posix_sigevent cb data) = Except.error e2 →
          (posix_timer host2 cb data).fst = (posix_timer host cb data).fst := by
  constructor
  · simp [posix_timer, h]
  · intro host2 e2 h2
    simp [posix_timer, h, h2]

/-- C1 witness: the always-failing host with errno 12 (ENOMEM) makes
`posix_timer` return the sentinel `0`. -/
theorem posix_timer_failure_sentinel_witness :
    (posix_timer (fun _ _ => Except.error 12) 1 2).fst = 0 :=
  (posix_timer_failure_sentinel (fun _ _ => Except.error 12) 1 2 12 rfl).1

/-- C2: if the host's `timer_create` succeeds, `posix_timer` returns
exactly the identifier the host wrote into the output handle, unchanged. -/
theorem posix_timer_success_returns_id (host : Host) (cb data id : Nat)
    (h : host CLOCK_REALTIME (posix_sigevent cb data) = Except.ok id) :
    (posix_timer host cb data).fst = id := by
  simp [posix_timer, h]

/-- C2 witness: a host that assigns identifier 7 makes `posix_timer`
return 7. -/
theorem posix_timer_success_returns_id_witness :
    (posix_timer (fun _ _ => Except.ok 7) 3 4).fst = 7 :=
  posix_timer_success_returns_id (fun _ _ => Except.ok 7) 3 4 7 rfl

/-- C3 counterexample: with a host whose successful registration assigns
the identifier `0`, `posix_timer` performs the registration and the trace
records the host's success (`Except.ok 0`), yet the value returned is the
sentinel `0` — refuting "never returns the sentinel (0) when the kernel
registration succeeded" at the concrete input `host = fun _ _ => Except.ok 0`,
`cb = 1`, `data = 2`. -/
theorem posix_timer_sentinel_despite_success :
    (posix_timer (fun _ _ => Except.ok 0) 1 2).snd =
        [HostCall.timer_create CLOCK_REALTIME (posix_sigevent 1 2) (Except.ok 0)] ∧
      (posix_timer (fun _ _ => Except.ok 0) 1 2).fst = 0 :=
  ⟨rfl, rfl⟩

/-- C3 amended: `posix_timer` performs exactly one kernel registration and
its trace records the host's response; on host failure it returns the
sentinel `0`, and on host success it returns the host-assigned identifier
unchanged — hence it never returns a nonzero identifier without a
successful registration, and after a successful registration it returns
the sentinel only when the host itself assigned the identifier `0`. -/
theorem posix_timer_result_characterization (host : Host) (cb data : Nat) :
    (posix_timer host cb data).snd =
        [HostCall.timer_create CLOCK_REALTIME (posix_sigevent cb data)
          (host CLOCK_REALTIME (posix_sigevent cb data))] ∧
      (∀ e, host CLOCK_REALTIME (posix_sigevent cb data) = Except.error e →
        (posix_timer host cb data).fst = 0) ∧
      ∀ id, host CLOCK_REALTIME (posix_sigevent cb data) = Except.ok id →
        (posix_timer host cb data).fst = id := by
  refine ⟨?_, ?_, ?_⟩
  · cases h : host CLOCK_REALTIME (posix_sigevent cb data) <;> simp [posix_timer, h]
  · intro e h
    simp [posix_timer, h]
  · intro id h
    simp [posix_timer, h]

/-- C4: the caller-supplied context pointer is stored into
`sigev_value.sival_ptr` exactly as given, and that very sigevent is the
one handed to the host's registration call — the context is not
interpreted, copied elsewhere, modified, or freed on the way. -/
theorem posix_timer_context_passthrough (host : Host) (cb data : Nat) :
    (posix_sigevent cb data).sigev_value = data ∧
      ∃ r, (posix_timer host cb data).snd =
        [HostCall.timer_create CLOCK_REALTIME (posix_sigevent cb data) r] := by
  refine ⟨rfl, ?_⟩
  cases h : host CLOCK_REALTIME (posix_sigevent cb data) with
  | error e => exact ⟨Except.error e, by simp [posix_timer, h]⟩
  | ok id => exact ⟨Except.ok id, by simp [posix_timer, h]⟩

/-- C5: the sigevent `posix_timer` hands to the host requests thread-based
notification — `sigev_notify = SIGEV_THREAD` — with the supplied callback
as the notification function, so expiration is delivered by the host
running the callback on a host-managed thread rather than on the
registering thread. -/
theorem posix_timer_requests_thread_notification (host : Host) (cb data : Nat) :
    (posix_sigevent cb data).sigev_notify = SIGEV_THREAD ∧
      (posix_sigevent cb data).sigev_notify_function = cb ∧
      ∃ r, (posix_timer host cb data).snd =
        [HostCall.timer_create CLOCK_REALTIME (posix_sigevent cb data) r] := by
  refine ⟨rfl, rfl, ?_⟩
  cases h : host CLOCK_REALTIME (posix_sigevent cb data) with
  | error e => exact ⟨Except.error e, by simp [posix_timer, h]⟩
  | ok id => exact ⟨Except.ok id, by simp [posix_timer, h]⟩

/-- C6: every invocation registers against the realtime clock — a
`timer_create` call with `CLOCK_REALTIME` is in the trace — and every
`timer_create` call in the trace uses `CLOCK_REALTIME`, so no other clock
is ever used. -/
theorem posix_timer_realtime_clock_only (host : Host) (cb data : Nat) :
    (∃ r, HostCall.timer_create CLOCK_REALTIME (posix_sigevent cb data) r ∈
        (posix_timer host cb data).snd) ∧
      ∀ clk sev r, HostCall.timer_create clk sev r ∈ (posix_timer host cb data).snd →
        clk = CLOCK_REALTIME := by
  cases h : host CLOCK_REALTIME (posix_sigevent cb data) with
  | error e =>
      refine ⟨⟨Except.error e, by simp [posix_timer, h]⟩, ?_⟩
      intro clk sev r hm
      simp [posix_timer, h] at hm
      exact hm.1
  | ok id =>
      refine ⟨⟨Except.ok id, by simp [posix_timer, h]⟩, ?_⟩
      intro clk sev r hm
      simp [posix_timer, h] at hm
      exact hm.1

/-- C7: the only host-visible effect of `posix_timer` is the single
`timer_create` registration call; no arming/configure (`timer_settime`)
call ever appears in the trace, so the timer is not armed when
`posix_timer` returns. -/
theorem posix_timer_registers_without_arming (host : Host) (cb data : Nat) :
    (∃ r, (posix_timer host cb data).snd =
        [HostCall.timer_create CLOCK_REALTIME (posix_sigevent cb data) r]) ∧
      ∀ id flags, HostCall.timer_settime id flags ∉ (posix_timer host cb data).snd := by
  cases h : host CLOCK_REALTIME (posix_sigevent cb data) with
  | error e =>
      refine ⟨⟨Except.error e, by simp [posix_timer, h]⟩, ?_⟩
      intro id flags hm
      simp [posix_timer, h] at hm
  | ok tid =>
      refine ⟨⟨Except.ok tid, by simp [posix_timer, h]⟩, ?_⟩
      intro id flags hm
      simp [posix_timer, h] at hm

/-- C8: `posix_timer` terminates and returns right after the single
registration call: for every host, callback and context it produces a
result whose trace has length exactly one, the lone call being the
`timer_create` registration — there is no loop, wait, or blocking on a
timer firing. -/
theorem posix_timer_single_call_then_return (host : Host) (cb data : Nat) :
    (posix_timer host cb data).snd.length = 1 ∧
      ∃ r, (posix_timer host cb data).snd.head? =
        some (HostCall.timer_create CLOCK_REALTIME (posix_sigevent cb data) r) := by
  cases h : host CLOCK_REALTIME (posix_sigevent cb data) with
  | error e => exact ⟨by simp [posix_timer, h], Except.error e, by simp [posix_timer, h]⟩
  | ok id => exact ⟨by simp [posix_timer, h], Except.ok id, by simp [posix_timer, h]⟩

/-- C9: `posix_timer` validates nothing: every callback value — including
the null function pointer `0` — and every context value — including null —
is forwarded unchanged into the sigevent, and the host registration call is
always made; no input is rejected before reaching the host. -/
theorem posix_timer_no_input_validation (host : Host) (cb data : Nat) :
    (posix_sigevent cb data).sigev_notify_function = cb ∧
      (posix_sigevent cb data).sigev_value = data ∧
      ∃ r, (posix_timer host cb data).snd =
        [HostCall.timer_create CLOCK_REALTIME (posix_sigevent cb data) r] := by
  refine ⟨rfl, rfl, ?_⟩
  cases h : host CLOCK_REALTIME (posix_sigevent cb data) with
  | error e => exact ⟨Except.error e, by simp [posix_timer, h]⟩
  | ok id => exact ⟨Except.ok id, by simp [posix_timer, h]⟩

/-- C10: in the sigevent handed to the host, every field other than
`sigev_notify`, `sigev_notify_function` and `sigev_value` is
zero-initialized by the designated initializer — in particular
`sigev_signo = 0` and `sigev_notify_attributes` is the null pointer, so
the notification thread is requested with the host's default thread
attributes. -/
theorem posix_sigevent_other_fields_zero (host : Host) (cb data : Nat) :
    (posix_sigevent cb data).sigev_signo = 0 ∧
      (posix_sigevent cb data).sigev_notify_attributes = 0 ∧
      ∃ r, (posix_timer host cb data).snd =
        [HostCall.timer_create CLOCK_REALTIME (posix_sigevent cb data) r] := by
  refine ⟨rfl, rfl, ?_⟩
  cases h : host CLOCK_REALTIME (posix_sigevent cb data) with
  | error e => exact ⟨Except.error e, by simp [posix_timer, h]⟩
  | ok id => exact ⟨Except.ok id, by simp [posix_timer, h]⟩
